import Mathlib

/-
Formal model of the SSRF-protection core of the `fetch` MCP server
(`src/fetch/src/mcp_server_fetch/server.py`).

The embedding is a shallow one: every Python function that the claims
mention is translated into an executable Lean definition of the same
name (modulo Lean identifier rules).  Machine integers are modelled as
`Nat`/`Int`; Python exceptions become `Option`/`Except`; network I/O
(`socket.getaddrinfo`, the wrapped httpx transport) is modelled by an
explicit resolver parameter.  Strings are treated as ASCII text, and the
semantics of the CPython standard library (`ipaddress`, `urllib.parse`,
`int(...)` literal parsing) is the one of CPython 3.11 as shipped with
the project.
-/

/-! ### ASCII character helpers -/

/-- The characters removed by Python `str.strip()` (ASCII fragment). -/
def isPySpace (c : Char) : Bool :=
  c = ' ' || c = '\t' || c = '\n' || c = '\x0d' || c = Char.ofNat 11 || c = Char.ofNat 12

/-- ASCII hexadecimal digit, the membership test of `ipaddress._BaseV6._HEX_DIGITS`
and of `int(s, 16)` digits. -/
def isHexDigitChar (c : Char) : Bool :=
  (c ≥ '0' && c ≤ '9') || (c ≥ 'a' && c ≤ 'f') || (c ≥ 'A' && c ≤ 'F')

/-- Numeric value of an ASCII hexadecimal digit. -/
def hexDigitVal (c : Char) : Nat :=
  if c ≥ '0' && c ≤ '9' then c.toNat - '0'.toNat
  else if c ≥ 'a' && c ≤ 'f' then c.toNat - 'a'.toNat + 10
  else if c ≥ 'A' && c ≤ 'F' then c.toNat - 'A'.toNat + 10
  else 0

/-- Python `str.strip()` on ASCII text. -/
def pyStrip (l : List Char) : List Char :=
  ((l.dropWhile isPySpace).reverse.dropWhile isPySpace).reverse

/-- Python `str.lower()` on ASCII text (`Char.toLower` lowercases exactly A-Z). -/
def pyLowerL (l : List Char) : List Char :=
  l.map Char.toLower

/-- Python `str.isdigit()` restricted to ASCII: nonempty and all ASCII digits. -/
def pyIsDigitStr (l : List Char) : Bool :=
  !l.isEmpty && l.all Char.isDigit

/-- Value of an all-digit ASCII string read in base 10. -/
def decVal (l : List Char) : Nat :=
  l.foldl (fun a c => 10 * a + (c.toNat - '0'.toNat)) 0

/-- Value of an all-octal-digit ASCII string read in base 8. -/
def octVal (l : List Char) : Nat :=
  l.foldl (fun a c => 8 * a + (c.toNat - '0'.toNat)) 0

/-- Value of an all-hex-digit ASCII string read in base 16. -/
def hexVal (l : List Char) : Nat :=
  l.foldl (fun a c => 16 * a + hexDigitVal c) 0

/-! ### Python integer-literal parsing

`int(s, base)` accepts single underscores between digits (grammar
`digit (["_"] digit)*`, and after a base marker additionally one leading
underscore).  `groupedDigits?` validates that grammar and returns the
digits with the underscores removed; `none` models `ValueError`. -/

/-- Continuation of `groupedDigits?` after at least one digit has been read:
a sequence of `["_"] digit` groups. -/
def gdAux (isDig : Char → Bool) : List Char → Option (List Char)
  | [] => some []
  | c :: rest =>
      if c = '_' then
        match rest with
        | [] => none
        | c2 :: rest2 =>
            if isDig c2 then (gdAux isDig rest2).map (fun t => c2 :: t) else none
      else if isDig c then (gdAux isDig rest).map (fun t => c :: t) else none

/-- Python `digitpart`: `digit (["_"] digit)*`; returns the digits without
underscores, `none` on a malformed literal. -/
def groupedDigits? (isDig : Char → Bool) : List Char → Option (List Char)
  | [] => none
  | c :: rest =>
      if isDig c then (gdAux isDig rest).map (fun t => c :: t) else none

/-- Digits of an `int(s, 16)` literal after the mandatory `0x`/`0X` marker:
one leading underscore is additionally allowed (`("_"? hexdigit)+`). -/
def hexTailDigits? (l : List Char) : Option (List Char) :=
  if l.headD ' ' = '_' then groupedDigits? isHexDigitChar l.tail
  else groupedDigits? isHexDigitChar l

/-- Python `int(s, 16)` for a string that starts with `0x`/`0X`
(the only shape the server ever feeds it). -/
def pyIntHex0x? (l : List Char) : Option Nat :=
  (hexTailDigits? (l.drop 2)).map hexVal

/-- Python `int(s, 8)` for an all-decimal-digit string: fails iff a digit
`8`/`9` occurs, otherwise reads the digits in base 8. -/
def pyIntOctDigits? (l : List Char) : Option Nat :=
  if l.all (fun c => c ≥ '0' && c ≤ '7') then some (octVal l) else none

/-- Python `int(s)` (base 10) on a stripped ASCII token: optional sign,
then `digit (["_"] digit)*`. -/
def pyIntDec? (l : List Char) : Option Int :=
  match l with
  | '+' :: rest => (groupedDigits? Char.isDigit rest).map (fun ds => (decVal ds : Int))
  | '-' :: rest => (groupedDigits? Char.isDigit rest).map (fun ds => -(decVal ds : Int))
  | _ => (groupedDigits? Char.isDigit l).map (fun ds => (decVal ds : Int))

/-! ### CPython `ipaddress`: IPv4 parsing and rendering -/

/-- `ipaddress._BaseV4._parse_octet`: nonempty, ASCII digits only, at most
3 characters, no leading zero (bpo-36384), value at most 255. -/
def parseIPv4Octet? (p : List Char) : Option Nat :=
  if p.isEmpty then none
  else if !p.all Char.isDigit then none
  else if p.length > 3 then none
  else if p ≠ ['0'] && p.headD ' ' = '0' then none
  else if decVal p > 255 then none
  else some (decVal p)

/-- `ipaddress._BaseV4._ip_int_from_string`: exactly four dot-separated
octets. -/
def ipv4IntFromChars? (l : List Char) : Option Nat :=
  match (l.splitOn '.').mapM parseIPv4Octet? with
  | some [a, b, c, d] => some (((a * 256 + b) * 256 + c) * 256 + d)
  | _ => none

/-- `ipaddress.IPv4Address(s)` for a string argument: rejects `/`, then
parses the dotted quad; the result is the 32-bit integer value. -/
def pyIPv4Address? (l : List Char) : Option Nat :=
  if l.contains '/' then none else ipv4IntFromChars? l

/-- `str(ipaddress.IPv4Address(n))`: canonical dotted-quad rendering. -/
def ipv4Chars (n : Nat) : List Char :=
  (Nat.repr ((n >>> 24) % 256)).data ++ '.' ::
  (Nat.repr ((n >>> 16) % 256)).data ++ '.' ::
  (Nat.repr ((n >>> 8) % 256)).data ++ '.' ::
  (Nat.repr (n % 256)).data

def ipv4Str (n : Nat) : String :=
  ⟨ipv4Chars n⟩

example : ipv4Str 2130706433 = "127.0.0.1" := by decide
example : pyIPv4Address? "8.8.8.8".data = some 0x08080808 := by decide
example : pyIPv4Address? "127.00.0.1".data = none := by decide
example : pyIPv4Address? "256.1.1.1".data = none := by decide

/-! ### CPython `ipaddress`: IPv6 parsing -/

/-- `ipaddress._BaseV6._parse_hextet`: hex digits only, at most 4 of them,
and `int('', 16)` fails on the empty string. -/
def parseHextet? (p : List Char) : Option Nat :=
  if !p.all isHexDigitChar then none
  else if p.length > 4 then none
  else if p.isEmpty then none
  else some (hexVal p)

/-- Lowercase unpadded hex rendering, Python `'%x' % n`. -/
def hexChars (n : Nat) : List Char :=
  Nat.toDigits 16 n

/-- Step of `_ip_int_from_string`: if the last colon-separated part
contains a dot, parse it as an IPv4 address and replace it by its two
16-bit halves rendered in hex. -/
def ipv6ExpandV4Suffix? (parts : List (List Char)) : Option (List (List Char)) :=
  match parts.getLast? with
  | none => none
  | some last =>
      if last.contains '.' then
        match pyIPv4Address? last with
        | none => none
        | some v4 =>
            some (parts.dropLast ++ [hexChars ((v4 >>> 16) % 65536), hexChars (v4 % 65536)])
      else some parts

/-- Fold a list of hextet parts into an accumulator, 16 bits at a time;
`none` if any part fails `parseHextet?`. -/
def foldHextets? (acc : Nat) (parts : List (List Char)) : Option Nat :=
  match parts with
  | [] => some acc
  | p :: rest =>
      match parseHextet? p with
      | none => none
      | some h => foldHextets? (acc * 65536 + h) rest

/-- `ipaddress._BaseV6._ip_int_from_string` (CPython 3.11): the 128-bit
value of an IPv6 text address, `none` on `AddressValueError`. -/
def ipv6IntFromChars? (l : List Char) : Option Nat :=
  if l.isEmpty then none
  else
    let parts0 := l.splitOn ':'
    if parts0.length < 3 then none
    else
      match ipv6ExpandV4Suffix? parts0 with
      | none => none
      | some parts =>
          if parts.length > 9 then none
          else
            let inner := (parts.drop 1).dropLast
            match (List.range inner.length).filter (fun i => inner.getD i [' '] = []) with
            | [] =>
                -- no '::': exactly 8 parts, endpoints nonempty
                if parts.length ≠ 8 then none
                else if parts.headD [' '] = [] then none
                else if parts.getLastD [' '] = [] then none
                else foldHextets? 0 parts
            | [i] =>
                let skipIndex := i + 1
                let partsHi := skipIndex
                let partsLo := parts.length - skipIndex - 1
                if parts.headD [' '] = [] && partsHi - 1 ≠ 0 then none
                else if parts.getLastD [' '] = [] && partsLo - 1 ≠ 0 then none
                else
                  let partsHi := if parts.headD [' '] = [] then partsHi - 1 else partsHi
                  let partsLo := if parts.getLastD [' '] = [] then partsLo - 1 else partsLo
                  let partsSkipped := 8 - (partsHi + partsLo)
                  if partsHi + partsLo ≥ 8 then none
                  else
                    match foldHextets? 0 (parts.take partsHi) with
                    | none => none
                    | some hi =>
                        match foldHextets? (hi * 65536 ^ partsSkipped) ((parts.drop (parts.length - partsLo))) with
                        | none => none
                        | some v => some v
            | _ => none

/-- `ipaddress.IPv6Address._split_scope_id`: split at the first `%`; a
present separator requires a nonempty scope id without further `%`. -/
def pySplitScopeId? (l : List Char) : Option (List Char × Option (List Char)) :=
  let addr := l.takeWhile (fun c => c ≠ '%')
  match l.dropWhile (fun c => c ≠ '%') with
  | [] => some (addr, none)
  | _ :: scope =>
      if scope.isEmpty || scope.contains '%' then none
      else some (addr, some scope)

/-- `ipaddress.IPv6Address(s)` for a string argument: rejects `/`, splits
a scope id, parses the address; the result is the 128-bit value together
with the optional scope id. -/
def pyIPv6Address? (l : List Char) : Option (Nat × Option (List Char)) :=
  if l.contains '/' then none
  else
    match pySplitScopeId? l with
    | none => none
    | some (addr, scope) => (ipv6IntFromChars? addr).map (fun v => (v, scope))

/-- A parsed Python `ipaddress` object: `IPv4Address` (32-bit value) or
`IPv6Address` (128-bit value plus optional scope id). -/
inductive PyIpAddr where
  | v4 (ip : Nat)
  | v6 (ip : Nat) (scopeId : Option (List Char))
  deriving DecidableEq, Repr

/-- `ipaddress.ip_address(s)`: try IPv4, then IPv6, else `ValueError`
(modelled as `none`). -/
def pyIpAddress (s : String) : Option PyIpAddr :=
  match pyIPv4Address? s.data with
  | some v => some (.v4 v)
  | none =>
      match pyIPv6Address? s.data with
      | some (v, sc) => some (.v6 v sc)
      | none => none

example : pyIpAddress "::1" = some (.v6 1 none) := by decide
example : pyIpAddress "::" = some (.v6 0 none) := by decide
example : pyIpAddress "::ffff:8.8.8.8" = some (.v6 0xffff08080808 none) := by decide
example : pyIpAddress "fe80::1%eth0" = some (.v6 0xfe800000000000000000000000000001 (some "eth0".data)) := by decide
example : pyIpAddress "fd00:ec2::254" = some (.v6 0xfd000ec2000000000000000000000254 none) := by decide
example : pyIpAddress "1:::2" = none := by decide
example : pyIpAddress "1::2:" = none := by decide
example : pyIpAddress "localhost" = none := by decide
example : pyIpAddress "2001:db8::8a2e:370:7334" = some (.v6 0x20010db80000000000008a2e03707334 none) := by decide

/-! ### CPython `ipaddress`: classification predicates

The network constants are the ones of CPython 3.11's
`ipaddress._IPv4Constants` / `_IPv6Constants`; `is_private` carries the
CVE-2024-4032 backport (IPv4-mapped addresses delegate to the embedded
IPv4 address), while `is_reserved`, `is_loopback`, `is_link_local`,
`is_multicast` and `is_unspecified` do not delegate. -/

/-- Membership of a 32-bit value in an IPv4 network given as base
address and prefix length. -/
def inNet4 (ip netAddr plen : Nat) : Bool :=
  ip >>> (32 - plen) = netAddr >>> (32 - plen)

/-- Membership of a 128-bit value in an IPv6 network. -/
def inNet6 (ip netAddr plen : Nat) : Bool :=
  ip >>> (128 - plen) = netAddr >>> (128 - plen)

/-- `_IPv4Constants._private_networks`. -/
def ipv4PrivateNetworks : List (Nat × Nat) :=
  [(0x00000000, 8),   -- 0.0.0.0/8
   (0x0A000000, 8),   -- 10.0.0.0/8
   (0x7F000000, 8),   -- 127.0.0.0/8
   (0xA9FE0000, 16),  -- 169.254.0.0/16
   (0xAC100000, 12),  -- 172.16.0.0/12
   (0xC0000000, 29),  -- 192.0.0.0/29
   (0xC00000AA, 31),  -- 192.0.0.170/31
   (0xC0000200, 24),  -- 192.0.2.0/24
   (0xC0A80000, 16),  -- 192.168.0.0/16
   (0xC6120000, 15),  -- 198.18.0.0/15
   (0xC6336400, 24),  -- 198.51.100.0/24
   (0xCB007100, 24),  -- 203.0.113.0/24
   (0xF0000000, 4),   -- 240.0.0.0/4
   (0xFFFFFFFF, 32)]  -- 255.255.255.255/32

/-- `IPv4Address.is_private`. -/
def v4IsPrivate (ip : Nat) : Bool :=
  ipv4PrivateNetworks.any (fun nw => inNet4 ip nw.1 nw.2)

/-- `_IPv6Constants._private_networks`. -/
def ipv6PrivateNetworks : List (Nat × Nat) :=
  [(1, 128),                                  -- ::1/128
   (0, 128),                                  -- ::/128
   (0xFFFF <<< 32, 96),                       -- ::ffff:0:0/96
   (0x0100 <<< 112, 64),                      -- 100::/64
   (0x2001 <<< 112, 23),                      -- 2001::/23
   ((0x2001 <<< 112) + (0x0002 <<< 96), 48),  -- 2001:2::/48
   ((0x2001 <<< 112) + (0x0DB8 <<< 96), 32),  -- 2001:db8::/32
   ((0x2001 <<< 112) + (0x0010 <<< 96), 28),  -- 2001:10::/28
   (0xFC00 <<< 112, 7),                       -- fc00::/7
   (0xFE80 <<< 112, 10)]                      -- fe80::/10

/-- `_IPv6Constants._reserved_networks`. -/
def ipv6ReservedNetworks : List (Nat × Nat) :=
  [(0, 8),                -- ::/8
   (0x0100 <<< 112, 8),   -- 100::/8
   (0x0200 <<< 112, 7),   -- 200::/7
   (0x0400 <<< 112, 6),   -- 400::/6
   (0x0800 <<< 112, 5),   -- 800::/5
   (0x1000 <<< 112, 4),   -- 1000::/4
   (0x4000 <<< 112, 3),   -- 4000::/3
   (0x6000 <<< 112, 3),   -- 6000::/3
   (0x8000 <<< 112, 3),   -- 8000::/3
   (0xA000 <<< 112, 3),   -- a000::/3
   (0xC000 <<< 112, 3),   -- c000::/3
   (0xE000 <<< 112, 4),   -- e000::/4
   (0xF000 <<< 112, 5),   -- f000::/5
   (0xF800 <<< 112, 6),   -- f800::/6
   (0xFE00 <<< 112, 9)]   -- fe00::/9

/-- `IPv6Address.ipv4_mapped` on the raw 128-bit value. -/
def v6Ipv4MappedVal (ip : Nat) : Option Nat :=
  if ip >>> 32 = 0xFFFF then some (ip % 4294967296) else none

/-- `ip.is_private`: for an IPv4-mapped IPv6 address this delegates to the
embedded IPv4 address (CVE-2024-4032 fix, present in the target CPython). -/
def pyIsPrivate : PyIpAddr → Bool
  | .v4 ip => v4IsPrivate ip
  | .v6 ip _ =>
      match v6Ipv4MappedVal ip with
      | some m => v4IsPrivate m
      | none => ipv6PrivateNetworks.any (fun nw => inNet6 ip nw.1 nw.2)

/-- `ip.is_loopback`: 127.0.0.0/8 for IPv4, exactly `::1` for IPv6. -/
def pyIsLoopback : PyIpAddr → Bool
  | .v4 ip => inNet4 ip 0x7F000000 8
  | .v6 ip _ => ip = 1

/-- `ip.is_link_local`: 169.254.0.0/16 for IPv4, fe80::/10 for IPv6. -/
def pyIsLinkLocal : PyIpAddr → Bool
  | .v4 ip => inNet4 ip 0xA9FE0000 16
  | .v6 ip _ => inNet6 ip (0xFE80 <<< 112) 10

/-- `ip.is_reserved`: 240.0.0.0/4 for IPv4, the IETF reserved blocks for
IPv6 (no IPv4-mapped delegation). -/
def pyIsReserved : PyIpAddr → Bool
  | .v4 ip => inNet4 ip 0xF0000000 4
  | .v6 ip _ => ipv6ReservedNetworks.any (fun nw => inNet6 ip nw.1 nw.2)

/-- `ip.is_multicast`: 224.0.0.0/4 for IPv4, ff00::/8 for IPv6. -/
def pyIsMulticast : PyIpAddr → Bool
  | .v4 ip => inNet4 ip 0xE0000000 4
  | .v6 ip _ => inNet6 ip (0xFF00 <<< 112) 8

/-- `ip.is_unspecified`: the zero address. -/
def pyIsUnspecified : PyIpAddr → Bool
  | .v4 ip => ip = 0
  | .v6 ip _ => ip = 0

/-- `ip.ipv4_mapped` as a partial projection on parsed addresses. -/
def pyIpv4Mapped : PyIpAddr → Option Nat
  | .v4 _ => none
  | .v6 ip _ => v6Ipv4MappedVal ip

/-! ### CPython `ipaddress`: IPv6 rendering -/

/-- State of the zero-run scan of `_BaseV6._compress_hextets`. -/
structure CompressScan where
  bestStart : Nat
  bestLen : Nat
  curStart : Option Nat
  curLen : Nat

/-- One step of the zero-run scan, fed with the index and the hextet. -/
def compressStep (st : CompressScan) (idx : Nat) (hextet : List Char) : CompressScan :=
  if hextet = ['0'] then
    let curStart := match st.curStart with | some s => s | none => idx
    let curLen := st.curLen + 1
    if curLen > st.bestLen then
      { bestStart := curStart, bestLen := curLen, curStart := some curStart, curLen := curLen }
    else
      { st with curStart := some curStart, curLen := curLen }
  else
    { st with curStart := none, curLen := 0 }

/-- `_BaseV6._compress_hextets`: replace the leftmost longest run (of
length at least 2) of `"0"` hextets by an empty part, padding the ends so
that joining with `:` produces the `::` shorthand. -/
def compressHextets (hextets : List (List Char)) : List (List Char) :=
  let st := (hextets.enum.foldl (fun st p => compressStep st p.1 p.2)
    { bestStart := 0, bestLen := 0, curStart := none, curLen := 0 })
  if st.bestLen > 1 then
    let e := st.bestStart + st.bestLen
    let hs := if e = hextets.length then hextets ++ [[]] else hextets
    let hs := hs.take st.bestStart ++ [[]] ++ hs.drop e
    if st.bestStart = 0 then [] :: hs else hs
  else hextets

/-- `str(IPv6Address)` without scope id: hextets in lowercase hex with the
best zero run compressed. -/
def ipv6Chars (n : Nat) : List Char :=
  let hextets := (List.range 8).map (fun i => hexChars ((n >>> (16 * (7 - i))) % 65536))
  List.intercalate [':'] (compressHextets hextets)

/-- `str(ip)` for a parsed address (IPv6 appends a `%scope` suffix). -/
def pyIpStr : PyIpAddr → String
  | .v4 ip => ipv4Str ip
  | .v6 ip sc =>
      match sc with
      | some scope => ⟨ipv6Chars ip ++ '%' :: scope⟩
      | none => ⟨ipv6Chars ip⟩

example : pyIpStr (.v6 1 none) = "::1" := by decide
example : pyIpStr (.v6 0 none) = "::" := by decide
example : pyIpStr (.v6 0xffff08080808 none) = "::ffff:808:808" := by decide
example : pyIpStr (.v6 0xfd000ec2000000000000000000000254 none) = "fd00:ec2::254" := by decide
example : pyIpStr (.v6 0x20010db80000000000008a2e03707334 none) = "2001:db8::8a2e:370:7334" := by decide
example : pyIpStr (.v6 0xfe800000000000000000000000000001 (some "eth0".data)) = "fe80::1%eth0" := by decide

/-! ### server.py: security constants -/

/-- `BLOCKED_HOSTNAMES` (server.py lines 58-68). -/
def BLOCKED_HOSTNAMES : List String :=
  ["localhost", "localhost.localdomain", "ip6-localhost", "ip6-loopback",
   "metadata.google.internal", "metadata.internal", "kubernetes.default",
   "kubernetes.default.svc", "kubernetes.default.svc.cluster.local"]

/-- `CLOUD_METADATA_IPS` (server.py lines 71-75). -/
def CLOUD_METADATA_IPS : List String :=
  ["169.254.169.254", "169.254.170.2", "fd00:ec2::254"]

/-! ### server.py: `_parse_obfuscated_ip` (lines 78-148) -/

/-- One octet of the dotted branch of `_parse_obfuscated_ip`: the value
(as a Python int, possibly negative) paired with the flag saying whether
this octet used an obfuscated (hex or leading-zero octal) form; `none`
models `ValueError`, which aborts the whole dotted branch. -/
def decodeDottedOctet? (p : List Char) : Option (Int × Bool) :=
  let p := pyStrip p
  if (pyLowerL p).take 2 = ['0', 'x'] then
    (pyIntHex0x? p).map (fun n => ((n : Int), true))
  else if p.headD ' ' = '0' && p.length > 1 && pyIsDigitStr p then
    (pyIntOctDigits? p).map (fun n => ((n : Int), true))
  else
    (pyIntDec? p).map (fun i => (i, false))

/-- Rendering of the dotted branch result,
`f"{octets[0]}.{octets[1]}.{octets[2]}.{octets[3]}"` for in-range octets. -/
def renderOctets (octets : List Int) : List Char :=
  List.intercalate ['.'] (octets.map (fun o => (Int.repr o).data))

/-- The dotted branch of `_parse_obfuscated_ip` (lines 124-146): a
4-part dot-separated token decodes per octet, and yields a result only
when at least one octet was obfuscated and all octets are in 0..255. -/
def parseObfDotted? (l : List Char) : Option (List Char) :=
  if l.contains '.' then
    let parts := l.splitOn '.'
    if parts.length = 4 then
      match parts.mapM decodeDottedOctet? with
      | none => none
      | some rs =>
          if rs.any (fun r => r.2) && rs.all (fun r => 0 ≤ r.1 && r.1 ≤ 255) then
            some (renderOctets (rs.map (fun r => r.1)))
          else none
    else none
  else none

/-- `_parse_obfuscated_ip` (server.py lines 78-148): detect and decode
decimal / octal / hex / dotted-mixed obfuscated IPv4 literals.  Each
`try` block that does not `return` falls through to the next form. -/
def _parse_obfuscated_ip (hostname : String) : Option String :=
  let l := pyStrip hostname.data
  -- octal integer format (leading zero, all digits)
  let b1 : Option Nat :=
    if l.headD ' ' = '0' && l.length > 1 && pyIsDigitStr l then
      (pyIntOctDigits? l).filter (fun n => n ≤ 0xFFFFFFFF)
    else none
  match b1 with
  | some n => some (ipv4Str n)
  | none =>
    -- decimal integer format
    let b2 : Option Nat :=
      if pyIsDigitStr l then
        (some (decVal l)).filter (fun n => n ≤ 0xFFFFFFFF)
      else none
    match b2 with
    | some n => some (ipv4Str n)
    | none =>
      -- hex format (0x marker, no dots)
      let b3 : Option Nat :=
        if (pyLowerL l).take 2 = ['0', 'x'] && !l.contains '.' then
          (pyIntHex0x? l).filter (fun n => n ≤ 0xFFFFFFFF)
        else none
      match b3 with
      | some n => some (ipv4Str n)
      | none =>
        -- octal/hex dotted format
        (parseObfDotted? l).map (fun cs => ⟨cs⟩)

example : _parse_obfuscated_ip "2130706433" = some "127.0.0.1" := by decide
example : _parse_obfuscated_ip "0x7f000001" = some "127.0.0.1" := by decide
example : _parse_obfuscated_ip "017700000001" = some "127.0.0.1" := by decide
example : _parse_obfuscated_ip "0177.0.0.1" = some "127.0.0.1" := by decide
example : _parse_obfuscated_ip "0x7f.0.0.1" = some "127.0.0.1" := by decide
example : _parse_obfuscated_ip "example.com" = none := by decide
example : _parse_obfuscated_ip "127.0.0.1" = none := by decide
example : _parse_obfuscated_ip "4294967296" = none := by decide
example : _parse_obfuscated_ip "0" = some "0.0.0.0" := by decide

/-! ### server.py: `_is_ip_private_or_reserved` (lines 151-192) -/

/-- Fuel-indexed body of `_is_ip_private_or_reserved`; the recursion of
the source (on `str(ip.ipv4_mapped)`, an IPv4 dotted quad, which never
recurses again) has depth at most 2, so the fuel-exhaustion answer
`true` is never reached from `_is_ip_private_or_reserved` itself. -/
def isIpPrivateOrReservedGo : Nat → String → Bool
  | 0, _ => true
  | fuel + 1, ipStr =>
    match pyIpAddress ipStr with
    | none => true  -- unparsable: block to be safe
    | some ip =>
      if pyIsPrivate ip then true
      else if pyIsLoopback ip then true
      else if pyIsLinkLocal ip then true
      else if pyIsReserved ip then true
      else if pyIsMulticast ip then true
      else if pyIsUnspecified ip then true
      else
        match pyIpv4Mapped ip with
        | some m => isIpPrivateOrReservedGo fuel (ipv4Str m)
        | none => decide (ipStr ∈ CLOUD_METADATA_IPS)

/-- `_is_ip_private_or_reserved` (server.py lines 151-192). -/
def _is_ip_private_or_reserved (ipStr : String) : Bool :=
  isIpPrivateOrReservedGo 2 ipStr

example : _is_ip_private_or_reserved "127.0.0.1" = true := by decide
example : _is_ip_private_or_reserved "10.1.2.3" = true := by decide
example : _is_ip_private_or_reserved "172.16.0.1" = true := by decide
example : _is_ip_private_or_reserved "192.168.1.1" = true := by decide
example : _is_ip_private_or_reserved "169.254.169.254" = true := by decide
example : _is_ip_private_or_reserved "169.254.170.2" = true := by decide
example : _is_ip_private_or_reserved "0.0.0.0" = true := by decide
example : _is_ip_private_or_reserved "224.0.0.1" = true := by decide
example : _is_ip_private_or_reserved "255.255.255.255" = true := by decide
example : _is_ip_private_or_reserved "8.8.8.8" = false := by decide
example : _is_ip_private_or_reserved "1.1.1.1" = false := by decide
example : _is_ip_private_or_reserved "93.184.216.34" = false := by decide
example : _is_ip_private_or_reserved "::1" = true := by decide
example : _is_ip_private_or_reserved "::" = true := by decide
example : _is_ip_private_or_reserved "fe80::1" = true := by decide
example : _is_ip_private_or_reserved "fd00:ec2::254" = true := by decide
example : _is_ip_private_or_reserved "fc00::1" = true := by decide
example : _is_ip_private_or_reserved "ff02::1" = true := by decide
example : _is_ip_private_or_reserved "2001:db8::1" = true := by decide
example : _is_ip_private_or_reserved "::ffff:127.0.0.1" = true := by decide
example : _is_ip_private_or_reserved "::ffff:8.8.8.8" = true := by decide
example : _is_ip_private_or_reserved "2607:f8b0:4004:c07::71" = false := by decide
example : _is_ip_private_or_reserved "not-an-ip" = true := by decide

/-! ### server.py: hostname helpers (lines 195-225) -/

/-- `_normalize_hostname` (lines 195-200): strip trailing dots, lowercase. -/
def _normalize_hostname (hostname : String) : String :=
  ⟨pyLowerL ((hostname.data.reverse.dropWhile (fun c => c = '.')).reverse)⟩

/-- `_is_hostname_blocked` (lines 203-216): direct match or dot-suffix
subdomain match against `BLOCKED_HOSTNAMES`. -/
def _is_hostname_blocked (hostname : String) : Bool :=
  let normalized := _normalize_hostname hostname
  decide (normalized ∈ BLOCKED_HOSTNAMES) ||
    BLOCKED_HOSTNAMES.any (fun blocked => ('.' :: blocked.data).isSuffixOf normalized.data)

/-- `_is_hostname_whitelisted` (lines 219-225); the allowlist
(`ALLOWED_PRIVATE_HOSTS`, already stripped and lowercased at load time)
is passed explicitly. -/
def _is_hostname_whitelisted (allowedPrivateHosts : List String) (hostname : String) : Bool :=
  if allowedPrivateHosts.isEmpty then false
  else decide (_normalize_hostname hostname ∈ allowedPrivateHosts)

example : _normalize_hostname "LOCALHOST.." = "localhost" := by decide
example : _is_hostname_blocked "localhost" = true := by decide
example : _is_hostname_blocked "LocalHost." = true := by decide
example : _is_hostname_blocked "foo.metadata.google.internal" = true := by decide
example : _is_hostname_blocked "example.com" = false := by decide
example : _is_hostname_blocked "notlocalhost" = false := by decide
example : _is_hostname_whitelisted ["internal.company.com"] "Internal.Company.Com." = true := by decide
example : _is_hostname_whitelisted [] "localhost" = false := by decide

/-! ### CPython `urllib.parse`: the scheme/hostname fragment used by the
validator.  `urlparse` is modelled only as far as the validator reads it:
`parsed.scheme` and `parsed.hostname`; `none` models the `ValueError`s
`urlsplit` can raise (invalid bracketed hosts), which the validator turns
into its invalid-URL-format error. -/

/-- Characters allowed after the first one of a URL scheme. -/
def isSchemeChar (c : Char) : Bool :=
  c.isAlpha || c.isDigit || c = '+' || c = '-' || c = '.'

/-- `urllib.parse._check_bracketed_host`: an IPvFuture literal
`v<hex>+.<anything>+` or a parseable non-IPv4 `ipaddress` literal. -/
def checkBracketedHost (l : List Char) : Bool :=
  if l.headD ' ' = 'v' then
    let t := l.drop 1
    let run := t.takeWhile isHexDigitChar
    let rest := t.drop run.length
    !run.isEmpty && rest.headD ' ' = '.' && rest.length ≥ 2
  else
    match pyIpAddress ⟨l⟩ with
    | some (.v4 _) => false
    | some (.v6 _ _) => true
    | none => false

/-- `urllib.parse.urlsplit` (CPython 3.11) reduced to the
`(scheme, netloc)` projection; ASCII inputs assumed, under which
`_checknetloc` never raises. -/
def pyUrlsplit (url : String) : Option (String × String) :=
  let u0 := url.data.dropWhile (fun c => c.toNat ≤ 32)
  let u := u0.filter (fun c => !(c = '\t' || c = '\x0d' || c = '\n'))
  let su :=
    match u.findIdx? (fun c => c = ':') with
    | some i =>
        if i > 0 && (u.headD ' ').isAlpha && (u.take i).all isSchemeChar then
          (String.mk (pyLowerL (u.take i)), u.drop (i + 1))
        else ("", u)
    | none => ("", u)
  let scheme := su.1
  let u1 := su.2
  if u1.take 2 = ['/', '/'] then
    let netloc := (u1.drop 2).takeWhile (fun c => !(c = '/' || c = '?' || c = '#'))
    if (netloc.contains '[' && !netloc.contains ']') ||
       (netloc.contains ']' && !netloc.contains '[') then none
    else if netloc.contains '[' && netloc.contains ']' then
      let bracketed := ((netloc.dropWhile (fun c => c ≠ '[')).drop 1).takeWhile (fun c => c ≠ ']')
      if checkBracketedHost bracketed then some (scheme, String.mk netloc) else none
    else some (scheme, String.mk netloc)
  else some (scheme, "")

/-- The part of a netloc after the last `@` (`str.rpartition`). -/
def afterLastAt (l : List Char) : List Char :=
  (l.reverse.takeWhile (fun c => c ≠ '@')).reverse

/-- `SplitResult.hostname` (`_NetlocResultMixinBase.hostname` over
`_hostinfo`): strip userinfo, strip the port, unwrap brackets, lowercase
everything before a `%` zone separator; empty means `None`. -/
def pyHostnameOfNetloc (netloc : List Char) : Option String :=
  let hostinfo := afterLastAt netloc
  let hostname :=
    if hostinfo.contains '[' then
      ((hostinfo.dropWhile (fun c => c ≠ '[')).drop 1).takeWhile (fun c => c ≠ ']')
    else hostinfo.takeWhile (fun c => c ≠ ':')
  if hostname.isEmpty then none
  else
    let beforeZone := hostname.takeWhile (fun c => c ≠ '%')
    match hostname.dropWhile (fun c => c ≠ '%') with
    | [] => some (String.mk (pyLowerL beforeZone))
    | zone => some (String.mk (pyLowerL beforeZone ++ zone))

/-- `urlparse(url)` as the validator consumes it: the scheme and the
optional hostname. -/
def pyUrlparsed (url : String) : Option (String × Option String) :=
  (pyUrlsplit url).map (fun p => (p.1, pyHostnameOfNetloc p.2.data))

example : pyUrlparsed "http://Example.COM/path" = some ("http", some "example.com") := by decide
example : pyUrlparsed "https://user:pw@host.com:8080/x?q=1#f" = some ("https", some "host.com") := by decide
example : pyUrlparsed "http://[::1]:80/" = some ("http", some "::1") := by decide
example : pyUrlparsed "file:///etc/passwd" = some ("file", none) := by decide
example : pyUrlparsed "javascript:alert(1)" = some ("javascript", none) := by decide
example : pyUrlparsed "http://localhost./" = some ("http", some "localhost.") := by decide
example : pyUrlparsed "http://[127.0.0.1]/" = none := by decide
example : pyUrlparsed "notaurl" = some ("", none) := by decide

/-! ### server.py: error taxonomy

Each constructor corresponds to one `raise McpError(...)` site of the
validator (lines 228-334) or of the transport (lines 359-407), carrying
the data interpolated into its message.  All of them use the code
`INVALID_PARAMS`. -/

inductive McpE where
  | invalidUrlFormat
  | invalidScheme (scheme : String)
  | missingHostname
  | blockedHostname (hostname : String)
  | obfuscatedPrivateIp (hostname decoded : String)
  | privateIp (hostname : String)
  | resolutionFailed (hostname detail : String)
  | resolvesPrivate (hostname ip : String)
  | transportResolutionFailed (hostname detail : String)
  | transportNoAddresses (hostname : String)
  | rebindingDetected (hostname ip : String)
  deriving DecidableEq, Repr

/-- The JSON-RPC error code attached to every SSRF-validation error:
`INVALID_PARAMS`. -/
def mcpCode (_ : McpE) : Int := -32602

/-- The message f-string of each raise site (`str(e)` details are the
carried `detail` arguments; the one of `invalidUrlFormat` is elided). -/
def mcpMessage : McpE → String
  | .invalidUrlFormat => "Invalid URL format: "
  | .invalidScheme scheme =>
      "URL scheme '" ++ scheme ++ "' is not allowed. Only http and https are permitted."
  | .missingHostname => "URL must contain a valid hostname."
  | .blockedHostname h =>
      "Access to '" ++ h ++ "' is blocked for security reasons. This hostname is associated with internal services."
  | .obfuscatedPrivateIp h d =>
      "Access to obfuscated private IP address '" ++ h ++ "' (decoded: " ++ d ++
      ") is blocked. Set MCP_FETCH_ALLOW_PRIVATE_IPS=true to allow internal network access."
  | .privateIp h =>
      "Access to private/internal IP address '" ++ h ++
      "' is blocked. Set MCP_FETCH_ALLOW_PRIVATE_IPS=true to allow internal network access."
  | .resolutionFailed h e => "Failed to resolve hostname '" ++ h ++ "': " ++ e
  | .resolvesPrivate h ip =>
      "Hostname '" ++ h ++ "' resolves to private/internal IP address '" ++ ip ++
      "'. Access to internal networks is blocked for security. Set MCP_FETCH_ALLOW_PRIVATE_IPS=true or add the host to MCP_FETCH_ALLOWED_PRIVATE_HOSTS to allow access."
  | .transportResolutionFailed h e => "Failed to resolve hostname '" ++ h ++ "': " ++ e
  | .transportNoAddresses h => "Failed to resolve hostname '" ++ h ++ "': no addresses found"
  | .rebindingDetected h ip =>
      "DNS rebinding protection: hostname '" ++ h ++ "' resolved to private/internal IP '" ++ ip ++
      "' at connection time. Set MCP_FETCH_ALLOW_PRIVATE_IPS=true to allow internal network access."

/-- The process-wide allow policy, loaded once from the environment
(`ALLOW_PRIVATE_IPS`, `ALLOWED_PRIVATE_HOSTS`); spec section 3. -/
structure AllowPolicy where
  allowPrivateIPs : Bool
  allowedPrivateHosts : List String

/-- DNS resolution (`socket.getaddrinfo` across all address families,
projected to the address strings in iteration order); `.error d` models
`socket.gaierror` with message `d`. -/
def Resolver : Type := String → Except String (List String)

/-! ### server.py: `validate_url_for_ssrf` (lines 228-334) -/

def validate_url_for_ssrf (policy : AllowPolicy) (resolver : Resolver) (url : String) :
    Except McpE Unit :=
  match pyUrlparsed url with
  | none => .error .invalidUrlFormat
  | some (scheme, hostnameOpt) =>
    if scheme ≠ "http" && scheme ≠ "https" then .error (.invalidScheme scheme)
    else
      match hostnameOpt with
      | none => .error .missingHostname
      | some hostname =>
        if _is_hostname_whitelisted policy.allowedPrivateHosts hostname then .ok ()
        else if _is_hostname_blocked hostname then .error (.blockedHostname hostname)
        else
          match _parse_obfuscated_ip hostname with
          | some obfuscatedIp =>
              if _is_ip_private_or_reserved obfuscatedIp then
                if !policy.allowPrivateIPs then .error (.obfuscatedPrivateIp hostname obfuscatedIp)
                else .ok ()
              else .ok ()
          | none =>
            match pyIpAddress hostname with
            | some ip =>
                if _is_ip_private_or_reserved (pyIpStr ip) then
                  if !policy.allowPrivateIPs then .error (.privateIp hostname)
                  else .ok ()
                else .ok ()
            | none =>
              match resolver hostname with
              | .error e => .error (.resolutionFailed hostname e)
              | .ok resolvedIps =>
                if !policy.allowPrivateIPs then
                  match resolvedIps.find? (fun s => _is_ip_private_or_reserved s) with
                  | some bad => .error (.resolvesPrivate hostname bad)
                  | none => .ok ()
                else .ok ()

/-- The default policy of a stock deployment: `ALLOW_PRIVATE_IPS=false`,
no allowlisted private hosts. -/
def defaultPolicy : AllowPolicy :=
  { allowPrivateIPs := false, allowedPrivateHosts := [] }

/-- A resolver used by concrete witnesses: everything resolves to a
single public address. -/
def publicResolver : Resolver :=
  fun _ => .ok ["93.184.216.34"]

example : validate_url_for_ssrf defaultPolicy publicResolver "http://localhost/" =
    .error (.blockedHostname "localhost") := rfl
example : validate_url_for_ssrf defaultPolicy publicResolver "http://127.0.0.1/" =
    .error (.privateIp "127.0.0.1") := rfl
example : validate_url_for_ssrf defaultPolicy publicResolver "http://169.254.169.254/" =
    .error (.privateIp "169.254.169.254") := rfl
example : validate_url_for_ssrf defaultPolicy publicResolver "http://metadata.google.internal/" =
    .error (.blockedHostname "metadata.google.internal") := rfl
example : validate_url_for_ssrf defaultPolicy publicResolver "http://2130706433/" =
    .error (.obfuscatedPrivateIp "2130706433" "127.0.0.1") := rfl
example : validate_url_for_ssrf defaultPolicy publicResolver "http://example.com/" = .ok () := rfl
example : validate_url_for_ssrf defaultPolicy (fun _ => .ok ["10.0.0.5"]) "http://example.com/" =
    .error (.resolvesPrivate "example.com" "10.0.0.5") := rfl
example : validate_url_for_ssrf defaultPolicy (fun _ => .error "gaierror") "http://example.com/" =
    .error (.resolutionFailed "example.com" "gaierror") := rfl

/-! ### server.py: `SSRFSafeTransport.handle_async_request` (lines 337-422)

`httpx.Request` / `httpx.URL` are modelled by the components the
transport reads and rewrites; the request forwarded to the wrapped
`httpx.AsyncHTTPTransport` is the `.ok` value, each raise site an
`.error`. -/

/-- The components of an `httpx.URL` the transport manipulates
(`url.host` is the bare host, brackets already stripped by httpx). -/
structure ModelUrl where
  scheme : String
  host : String
  port : Option Nat
  path : String
  deriving DecidableEq, Repr

/-- `url.netloc`, as used for an automatically generated Host header. -/
def urlNetloc (u : ModelUrl) : String :=
  (if u.host.data.contains ':' then "[" ++ u.host ++ "]" else u.host) ++
    (match u.port with
     | some p => ":" ++ Nat.repr p
     | none => "")

/-- An `httpx.Request`: method, URL, headers (ordered, case-insensitive
names), the body stream and the extensions mapping, both opaque here. -/
structure ModelRequest where
  method : String
  url : ModelUrl
  headers : List (String × String)
  stream : List Nat
  extensions : List (String × String)
  deriving DecidableEq, Repr

/-- Case-insensitive Host-header presence test (`"Host" in headers`). -/
def headersHasHost (headers : List (String × String)) : Bool :=
  headers.any (fun kv => pyLowerL kv.1.data = "host".data)

/-- The `httpx.Request(...)` constructor as used at lines 399-405: it
keeps the given headers and only generates a `Host` header (from
`url.netloc`) when none is present. -/
def httpxRequestMk (method : String) (url : ModelUrl) (headers : List (String × String))
    (stream : List Nat) (extensions : List (String × String)) : ModelRequest :=
  { method := method, url := url,
    headers :=
      if headersHasHost headers || url.host = "" then headers
      else ("Host", urlNetloc url) :: headers,
    stream := stream, extensions := extensions }

/-- `SSRFSafeTransport.handle_async_request` (lines 359-407): pass an IP
host through unchanged; otherwise re-resolve, re-validate the first
resolved address, and forward a request whose URL host is the validated
IP (headers, stream and extensions carried over). -/
def handle_async_request (resolver : Resolver) (allowPrivateIPs : Bool)
    (request : ModelRequest) : Except McpE ModelRequest :=
  let hostname := request.url.host
  match pyIpAddress hostname with
  | some _ => .ok request  -- already an IP: validation was done pre-flight
  | none =>
    match resolver hostname with
    | .error e => .error (.transportResolutionFailed hostname e)
    | .ok addrInfo =>
      match addrInfo with
      | [] => .error (.transportNoAddresses hostname)
      | resolvedIp :: _ =>
        if !allowPrivateIPs && _is_ip_private_or_reserved resolvedIp then
          .error (.rebindingDetected hostname resolvedIp)
        else
          let newUrl := { request.url with host := resolvedIp }
          .ok (httpxRequestMk request.method newUrl request.headers
            request.stream request.extensions)

/-- A request as the httpx client hands it to the transport. -/
def sampleRequest : ModelRequest :=
  { method := "GET"
    url := { scheme := "http", host := "example.com", port := none, path := "/" }
    headers := [("Host", "example.com"), ("User-Agent", "ModelContextProtocol/1.0")]
    stream := []
    extensions := [] }

example : handle_async_request (fun _ => .ok ["169.254.169.254"]) false sampleRequest =
    .error (.rebindingDetected "example.com" "169.254.169.254") := rfl
example : handle_async_request publicResolver false sampleRequest =
    .ok { sampleRequest with url := { sampleRequest.url with host := "93.184.216.34" } } := rfl
example : handle_async_request publicResolver false
    { sampleRequest with url := { sampleRequest.url with host := "127.0.0.1" } } =
    .ok { sampleRequest with url := { sampleRequest.url with host := "127.0.0.1" } } := rfl

/-! ### server.py: the fetch tool's truncation logic (`call_tool`,
lines 701-716) -/

/-- Python `content[start:stop]` for nonnegative indices. -/
def pySlice (content : List Char) (start stop : Nat) : List Char :=
  (content.take stop).drop start

/-- The error text returned when no content remains. -/
def NO_MORE_CONTENT : List Char :=
  "<error>No more content available.</error>".data

/-- The continuation hint appended to a full-length truncated slice. -/
def truncationHint (nextStart : Nat) : List Char :=
  ("\n\n<error>Content truncated. Call the fetch tool with a start_index of " ++
    Nat.repr nextStart ++ " to get more content.</error>").data

/-- Lines 701-715 of `call_tool`: slice the fetched content at
`start_index`, cap it at `max_length`, and append the continuation hint
only when the slice is full-length and content remains. -/
def truncateFetchedContent (content : List Char) (startIndex maxLength : Nat) : List Char :=
  let originalLength := content.length
  if startIndex ≥ originalLength then NO_MORE_CONTENT
  else
    let truncatedContent := pySlice content startIndex (startIndex + maxLength)
    if truncatedContent.isEmpty then NO_MORE_CONTENT
    else
      let actualContentLength := truncatedContent.length
      let remainingContent := originalLength - (startIndex + actualContentLength)
      if actualContentLength = maxLength && remainingContent > 0 then
        truncatedContent ++ truncationHint (startIndex + actualContentLength)
      else truncatedContent

/-- Line 716 of `call_tool`: the text of the returned `TextContent`. -/
def callToolText (prefixStr url : String) (content : List Char)
    (startIndex maxLength : Nat) : String :=
  prefixStr ++ "Contents of " ++ url ++ ":\n" ++ String.mk (truncateFetchedContent content startIndex maxLength)

example : truncateFetchedContent "hello".data 5 100 = NO_MORE_CONTENT := by decide
example : truncateFetchedContent "hello".data 7 100 = NO_MORE_CONTENT := by decide
example : truncateFetchedContent "hello".data 0 100 = "hello".data := by decide
example : truncateFetchedContent "hello world".data 0 5 =
    ("hello".data ++ truncationHint 5) := by decide
example : truncateFetchedContent "hello world".data 6 5 = "world".data := by decide
example : truncateFetchedContent "hello".data 0 5 = "hello".data := by decide

/-! ### Helper lemmas -/

/-- If every element fails `p`, `dropWhile p` is the identity. -/
theorem dropWhile_eq_self_of_forall {p : Char → Bool} :
    ∀ l : List Char, (∀ c ∈ l, p c = false) → l.dropWhile p = l
  | [], _ => rfl
  | c :: rest, h => by
      have hc := h c (List.mem_cons_self c rest)
      simp [List.dropWhile, hc]

/-- `str.strip()` of a string without Python whitespace. -/
theorem pyStrip_eq_self (l : List Char) (h : ∀ c ∈ l, isPySpace c = false) :
    pyStrip l = l := by
  unfold pyStrip
  rw [dropWhile_eq_self_of_forall l h]
  rw [dropWhile_eq_self_of_forall l.reverse (fun c hc => h c (List.mem_reverse.mp hc))]
  exact List.reverse_reverse l

/-- ASCII digits are not Python whitespace. -/
theorem not_space_of_digit (c : Char) (h : c.isDigit = true) : isPySpace c = false := by
  simp only [Char.isDigit, decide_eq_true_eq, Bool.and_eq_true] at h
  simp only [isPySpace, Bool.or_eq_false_iff, decide_eq_false_iff_not]
  have h1 : ('0' : Char).val ≤ c.val := by exact_mod_cast h.1
  have h2 : c.val ≤ ('9' : Char).val := by exact_mod_cast h.2
  refine ⟨⟨⟨⟨⟨?_, ?_⟩, ?_⟩, ?_⟩, ?_⟩, ?_⟩ <;>
    (intro he; subst he; revert h1 h2; decide)

/-- Hex digits are not Python whitespace. -/
theorem not_space_of_hexDigit (c : Char) (h : isHexDigitChar c = true) :
    isPySpace c = false := by
  simp only [isHexDigitChar, Bool.or_eq_true, Bool.and_eq_true, decide_eq_true_eq] at h
  simp only [isPySpace, Bool.or_eq_false_iff, decide_eq_false_iff_not]
  refine ⟨⟨⟨⟨⟨?_, ?_⟩, ?_⟩, ?_⟩, ?_⟩, ?_⟩ <;>
    (intro he; subst he; revert h; decide)

/-- If no element of `l` satisfies `p = true` at `a`, then `l.contains a`
is false whenever `p a` fails the list's invariant. -/
theorem contains_eq_false_of_all {l : List Char} {p : Char → Bool} {a : Char}
    (h : l.all p = true) (ha : p a = false) : l.contains a = false := by
  by_contra hc
  rw [Bool.not_eq_false] at hc
  have hmem : a ∈ l := List.elem_iff.mp hc
  rw [List.all_eq_true] at h
  have hpa := h a hmem
  rw [hpa] at ha
  exact absurd ha (by decide)

/-- `gdAux` accepts a pure digit string and returns it unchanged. -/
theorem gdAux_of_all (isDig : Char → Bool) (hu : isDig '_' = false) :
    ∀ l : List Char, l.all isDig = true → gdAux isDig l = some l
  | [], _ => rfl
  | c :: rest, h => by
      rw [List.all_cons, Bool.and_eq_true] at h
      have hc : c ≠ '_' := by
        intro he; subst he; rw [hu] at h; exact Bool.false_ne_true h.1
      conv_lhs => rw [gdAux.eq_def]
      simp only [if_neg hc, h.1, if_true]
      rw [gdAux_of_all isDig hu rest h.2]
      rfl

/-- `groupedDigits?` accepts a nonempty pure digit string unchanged. -/
theorem groupedDigits?_of_all (isDig : Char → Bool) (hu : isDig '_' = false)
    (l : List Char) (hne : l ≠ []) (h : l.all isDig = true) :
    groupedDigits? isDig l = some l := by
  match l with
  | [] => exact absurd rfl hne
  | c :: rest =>
      rw [List.all_cons, Bool.and_eq_true] at h
      rw [groupedDigits?]
      rw [h.1, if_pos rfl, gdAux_of_all isDig hu rest h.2]
      rfl

/-- If the string parses and any of the six dangerous predicates holds,
the if-chain of `_is_ip_private_or_reserved` answers `true` (whatever the
fuel left for the IPv4-mapped recursion). -/
theorem oracleGo_succ_dangerous (fuel : Nat) (s : String) (ip : PyIpAddr)
    (h : pyIpAddress s = some ip)
    (hd : pyIsPrivate ip = true ∨ pyIsLoopback ip = true ∨ pyIsLinkLocal ip = true ∨
          pyIsReserved ip = true ∨ pyIsMulticast ip = true ∨ pyIsUnspecified ip = true) :
    isIpPrivateOrReservedGo (fuel + 1) s = true := by
  rcases hd with hd | hd | hd | hd | hd | hd <;>
    simp [isIpPrivateOrReservedGo, h, hd]

/-- `_is_ip_private_or_reserved` answers `true` on any parsed address in a
dangerous category. -/
theorem oracle_dangerous_of_pred (s : String) (ip : PyIpAddr)
    (h : pyIpAddress s = some ip)
    (hd : pyIsPrivate ip = true ∨ pyIsLoopback ip = true ∨ pyIsLinkLocal ip = true ∨
          pyIsReserved ip = true ∨ pyIsMulticast ip = true ∨ pyIsUnspecified ip = true) :
    _is_ip_private_or_reserved s = true :=
  oracleGo_succ_dangerous 1 s ip h hd

/-- `_is_ip_private_or_reserved` fails closed on unparsable input. -/
theorem oracle_unparsable (s : String) (h : pyIpAddress s = none) :
    _is_ip_private_or_reserved s = true := by
  unfold _is_ip_private_or_reserved
  rw [isIpPrivateOrReservedGo, h]

/-- Every IPv4-mapped 128-bit value lies in the reserved block `::/8`, so
`is_reserved` is true of it. -/
theorem reserved_of_mapped (v : Nat) (sc : Option (List Char)) (hm : v >>> 32 = 0xFFFF) :
    pyIsReserved (.v6 v sc) = true := by
  have hdiv : v / 2 ^ 32 = 0xFFFF := by
    simpa [Nat.shiftRight_eq_div_pow] using hm
  have hlt : v / 2 ^ 32 < 2 ^ 16 := by rw [hdiv]; norm_num
  have hv48 : v < 2 ^ 16 * 2 ^ 32 :=
    (Nat.div_lt_iff_lt_mul (by positivity)).mp hlt
  have hv120 : v / 2 ^ 120 = 0 :=
    Nat.div_eq_of_lt (lt_trans hv48 (by norm_num))
  show (ipv6ReservedNetworks.any fun nw => inNet6 v nw.1 nw.2) = true
  rw [List.any_eq_true]
  refine ⟨(0, 8), by simp [ipv6ReservedNetworks], ?_⟩
  simp [inNet6, Nat.shiftRight_eq_div_pow]
  simpa using hv120

/-! ### Claim theorems -/

/-- C2: for every IP literal the Oracle returns dangerous if the parsed
address is loopback, link-local, private, reserved, multicast or
unspecified, or if the literal is one of the enumerated cloud-metadata
addresses; it returns safe for the public addresses 8.8.8.8 and 1.1.1.1;
and every unparsable input is classified dangerous (fail-closed). -/
theorem C2_oracle_classification :
    (∀ (s : String) (ip : PyIpAddr), pyIpAddress s = some ip →
       (pyIsLoopback ip = true ∨ pyIsLinkLocal ip = true ∨ pyIsPrivate ip = true ∨
        pyIsReserved ip = true ∨ pyIsMulticast ip = true ∨ pyIsUnspecified ip = true) →
       _is_ip_private_or_reserved s = true) ∧
    (∀ s : String, s ∈ CLOUD_METADATA_IPS → _is_ip_private_or_reserved s = true) ∧
    _is_ip_private_or_reserved "8.8.8.8" = false ∧
    _is_ip_private_or_reserved "1.1.1.1" = false ∧
    (∀ s : String, pyIpAddress s = none → _is_ip_private_or_reserved s = true) := by
  refine ⟨?_, ?_, by decide, by decide, oracle_unparsable⟩
  · intro s ip h hd
    exact oracle_dangerous_of_pred s ip h (by tauto)
  · intro s hs
    fin_cases hs <;> decide

/-- Witness for C2 at concrete inputs: the loopback literal 127.0.0.1,
the ECS metadata address, and an unparsable string. -/
theorem C2_oracle_classification_witness :
    _is_ip_private_or_reserved "127.0.0.1" = true ∧
    _is_ip_private_or_reserved "169.254.170.2" = true ∧
    _is_ip_private_or_reserved "definitely-not-an-ip" = true := by
  refine ⟨?_, ?_, ?_⟩
  · exact C2_oracle_classification.1 "127.0.0.1" (.v4 2130706433) (by decide)
      (Or.inl (by decide))
  · exact C2_oracle_classification.2.1 "169.254.170.2" (by decide)
  · exact C2_oracle_classification.2.2.2.2 "definitely-not-an-ip" (by decide)

/-- C4 counterexample: the claim says the classification of
`::ffff:a.b.c.d` equals the classification of `a.b.c.d`, and in
particular that `::ffff:8.8.8.8` is safe; but the Oracle classifies
`::ffff:8.8.8.8` dangerous while `8.8.8.8` is safe. -/
theorem C4_counterexample_mapped_public :
    _is_ip_private_or_reserved "::ffff:8.8.8.8" = true ∧
    _is_ip_private_or_reserved "8.8.8.8" = false := by decide

/-- C4 amended: every IPv4-mapped IPv6 address is classified dangerous,
because the `is_reserved` check (`::/8` contains all of `::ffff:0:0/96`)
fires before the recursive unwrap at line 182, which is therefore
unreachable; in particular `::ffff:127.0.0.1` is dangerous like
`127.0.0.1`, but `::ffff:8.8.8.8` is dangerous as well. -/
theorem C4_mapped_always_dangerous :
    (∀ (s : String) (v : Nat) (sc : Option (List Char)),
       pyIpAddress s = some (.v6 v sc) → v >>> 32 = 0xFFFF →
       _is_ip_private_or_reserved s = true) ∧
    _is_ip_private_or_reserved "::ffff:127.0.0.1" = true ∧
    _is_ip_private_or_reserved "::ffff:8.8.8.8" = true := by
  refine ⟨?_, by decide, by decide⟩
  intro s v sc h hm
  exact oracle_dangerous_of_pred s (.v6 v sc) h
    (Or.inr (Or.inr (Or.inr (Or.inl (reserved_of_mapped v sc hm)))))

/-- Witness for C4's amended theorem at the mapped public address
`::ffff:1.1.1.1`. -/
theorem C4_mapped_always_dangerous_witness :
    _is_ip_private_or_reserved "::ffff:1.1.1.1" = true :=
  C4_mapped_always_dangerous.1 "::ffff:1.1.1.1" 0xffff01010101 none
    (by decide) (by decide)

/-- C1: for every request whose connection host is not an IP literal, the
transport resolves the hostname again through its own resolver; when the
fresh first address is classified dangerous and private IPs are not
allowed, it fails with the dedicated rebinding error — a constructor
distinct from each pre-flight blocking error — and never forwards any
request to the wrapped transport. -/
theorem C1_transport_rebinding (resolver : Resolver) (req : ModelRequest)
    (ip : String) (rest : List String)
    (hip : pyIpAddress req.url.host = none)
    (hres : resolver req.url.host = .ok (ip :: rest))
    (hdanger : _is_ip_private_or_reserved ip = true) :
    handle_async_request resolver false req =
      .error (.rebindingDetected req.url.host ip) ∧
    (∀ r, handle_async_request resolver false req ≠ .ok r) ∧
    (∀ h, McpE.rebindingDetected req.url.host ip ≠ .blockedHostname h) ∧
    (∀ h, McpE.rebindingDetected req.url.host ip ≠ .privateIp h) ∧
    (∀ h d, McpE.rebindingDetected req.url.host ip ≠ .obfuscatedPrivateIp h d) ∧
    (∀ h i, McpE.rebindingDetected req.url.host ip ≠ .resolvesPrivate h i) := by
  have hmain : handle_async_request resolver false req =
      .error (.rebindingDetected req.url.host ip) := by
    simp only [handle_async_request]
    rw [hip, hres]
    simp [hdanger]
  refine ⟨hmain, ?_, ?_, ?_, ?_, ?_⟩
  · intro r hr
    rw [hmain] at hr
    exact Except.noConfusion hr
  · intro h hr; exact McpE.noConfusion hr
  · intro h hr; exact McpE.noConfusion hr
  · intro h d hr; exact McpE.noConfusion hr
  · intro h i hr; exact McpE.noConfusion hr

/-- Witness for C1: a request for example.com whose transport-time
resolution (unlike pre-flight) yields the metadata address. -/
theorem C1_transport_rebinding_witness :
    handle_async_request (fun _ => .ok ["169.254.169.254"]) false sampleRequest =
      .error (.rebindingDetected "example.com" "169.254.169.254") :=
  (C1_transport_rebinding (fun _ => .ok ["169.254.169.254"]) sampleRequest
    "169.254.169.254" [] (by decide) rfl (by decide)).1

/-- C5: whenever the transport rewrites a request, the forwarded request
carries exactly the freshly validated IP as URL host, and every other
component — method, headers (the original Host header among them), body
stream, extensions, and the remaining URL parts — is unchanged. -/
theorem C5_rewrite_preserves_request (resolver : Resolver) (allow : Bool)
    (req : ModelRequest) (ip : String) (rest : List String)
    (hip : pyIpAddress req.url.host = none)
    (hres : resolver req.url.host = .ok (ip :: rest))
    (hpass : allow = true ∨ _is_ip_private_or_reserved ip = false)
    (hhost : headersHasHost req.headers = true) :
    ∃ req2, handle_async_request resolver allow req = .ok req2 ∧
      req2.url.host = ip ∧
      req2.url.scheme = req.url.scheme ∧
      req2.url.port = req.url.port ∧
      req2.url.path = req.url.path ∧
      req2.method = req.method ∧
      req2.headers = req.headers ∧
      req2.stream = req.stream ∧
      req2.extensions = req.extensions := by
  have hcond : (!allow && _is_ip_private_or_reserved ip) = false := by
    rcases hpass with h | h <;> simp [h]
  have hmain : handle_async_request resolver allow req =
      .ok (httpxRequestMk req.method { req.url with host := ip }
        req.headers req.stream req.extensions) := by
    simp only [handle_async_request]
    rw [hip, hres]
    simp [hcond]
  refine ⟨httpxRequestMk req.method { req.url with host := ip }
    req.headers req.stream req.extensions, hmain, ?_, ?_, ?_, ?_, ?_, ?_, ?_, ?_⟩ <;>
    simp [httpxRequestMk, hhost]

/-- Witness for C5: the rewritten example.com request keeps its method,
headers, stream and extensions, and carries the validated public IP. -/
theorem C5_rewrite_preserves_request_witness :
    ∃ req2, handle_async_request publicResolver false sampleRequest = .ok req2 ∧
      req2.url.host = "93.184.216.34" ∧
      req2.url.scheme = sampleRequest.url.scheme ∧
      req2.url.port = sampleRequest.url.port ∧
      req2.url.path = sampleRequest.url.path ∧
      req2.method = sampleRequest.method ∧
      req2.headers = sampleRequest.headers ∧
      req2.stream = sampleRequest.stream ∧
      req2.extensions = sampleRequest.extensions :=
  C5_rewrite_preserves_request publicResolver false sampleRequest
    "93.184.216.34" [] (by decide) rfl (Or.inr (by decide)) (by decide)

/-- C3: for a hostname that is neither whitelisted, nor blocked, nor an
obfuscated or literal IP, the validator queries the resolver; a
resolution failure surfaces as the resolution-failed error (never as
success), and with private IPs disallowed any dangerous resolved address
produces the blocking resolves-private error. -/
theorem C3_dns_validation (policy : AllowPolicy) (resolver : Resolver)
    (url scheme hst : String)
    (hparse : pyUrlparsed url = some (scheme, some hst))
    (hscheme : scheme = "http" ∨ scheme = "https")
    (hwl : _is_hostname_whitelisted policy.allowedPrivateHosts hst = false)
    (hbl : _is_hostname_blocked hst = false)
    (hobf : _parse_obfuscated_ip hst = none)
    (hip : pyIpAddress hst = none) :
    (∀ e, resolver hst = .error e →
       validate_url_for_ssrf policy resolver url =
         .error (.resolutionFailed hst e)) ∧
    (∀ ips, resolver hst = .ok ips → policy.allowPrivateIPs = false →
       (∃ bad ∈ ips, _is_ip_private_or_reserved bad = true) →
       ∃ bad2 ∈ ips, _is_ip_private_or_reserved bad2 = true ∧
         validate_url_for_ssrf policy resolver url =
           .error (.resolvesPrivate hst bad2)) := by
  have hsch : (decide (scheme ≠ "http") && decide (scheme ≠ "https")) = false := by
    rcases hscheme with h | h <;> simp [h]
  have hv : ∀ r, resolver hst = r →
      validate_url_for_ssrf policy resolver url =
        (match r with
         | .error e => .error (.resolutionFailed hst e)
         | .ok resolvedIps =>
           if !policy.allowPrivateIPs then
             match resolvedIps.find? (fun s => _is_ip_private_or_reserved s) with
             | some bad => .error (.resolvesPrivate hst bad)
             | none => .ok ()
           else .ok ()) := by
    intro r hr
    simp only [validate_url_for_ssrf]
    rw [hparse]
    simp only [hsch, Bool.false_eq_true, if_false, hwl, hbl, if_true]
    rw [hobf, hip, hr]
  constructor
  · intro e hres
    rw [hv (.error e) hres]
  · intro ips hres hallow hex
    have hsome : (ips.find? (fun s => _is_ip_private_or_reserved s)).isSome := by
      rw [List.find?_isSome]
      obtain ⟨bad, hmem, hbad⟩ := hex
      exact ⟨bad, hmem, hbad⟩
    obtain ⟨bad2, hfind⟩ := Option.isSome_iff_exists.mp hsome
    refine ⟨bad2, List.mem_of_find?_eq_some hfind, List.find?_some hfind, ?_⟩
    rw [hv (.ok ips) hres]
    simp [hallow, hfind]

/-- Witness for C3: example.com with a failing resolver surfaces the
resolution error, and with a resolver answering a private address it is
blocked. -/
theorem C3_dns_validation_witness :
    validate_url_for_ssrf defaultPolicy (fun _ => .error "Name or service not known")
        "http://example.com/" =
      .error (.resolutionFailed "example.com" "Name or service not known") ∧
    ∃ bad2 ∈ ["10.0.0.5"], _is_ip_private_or_reserved bad2 = true ∧
      validate_url_for_ssrf defaultPolicy (fun _ => .ok ["10.0.0.5"])
          "http://example.com/" =
        .error (.resolvesPrivate "example.com" bad2) := by
  constructor
  · exact (C3_dns_validation defaultPolicy (fun _ => .error "Name or service not known")
      "http://example.com/" "http" "example.com" (by decide) (Or.inl rfl)
      (by decide) (by decide) (by decide) (by decide)).1 "Name or service not known" rfl
  · exact (C3_dns_validation defaultPolicy (fun _ => .ok ["10.0.0.5"])
      "http://example.com/" "http" "example.com" (by decide) (Or.inl rfl)
      (by decide) (by decide) (by decide) (by decide)).2 ["10.0.0.5"] rfl rfl
      ⟨"10.0.0.5", by decide, by decide⟩

/-- C8: a URL whose parsed scheme is neither http nor https is rejected
with the invalid-scheme error whose message quotes the scheme, for every
policy and resolver (so before any whitelist, blocklist, decoding, IP or
DNS logic can run); the enumerated dangerous schemes are all rejected
this way. -/
theorem C8_scheme_gate :
    (∀ (policy : AllowPolicy) (resolver : Resolver) (url scheme : String)
       (hh : Option String),
       pyUrlparsed url = some (scheme, hh) →
       scheme ≠ "http" → scheme ≠ "https" →
       validate_url_for_ssrf policy resolver url = .error (.invalidScheme scheme) ∧
       ∃ pre post, mcpMessage (.invalidScheme scheme) = pre ++ scheme ++ post) ∧
    (∀ (policy : AllowPolicy) (resolver : Resolver),
       validate_url_for_ssrf policy resolver "file:///etc/passwd" =
         .error (.invalidScheme "file") ∧
       validate_url_for_ssrf policy resolver "javascript:alert(1)" =
         .error (.invalidScheme "javascript") ∧
       validate_url_for_ssrf policy resolver "data:text/html,payload" =
         .error (.invalidScheme "data") ∧
       validate_url_for_ssrf policy resolver "gopher://evil.example/" =
         .error (.invalidScheme "gopher") ∧
       validate_url_for_ssrf policy resolver "ftp://example.com/file" =
         .error (.invalidScheme "ftp") ∧
       validate_url_for_ssrf policy resolver "ldap://example.com/" =
         .error (.invalidScheme "ldap") ∧
       validate_url_for_ssrf policy resolver "dict://example.com/" =
         .error (.invalidScheme "dict")) := by
  constructor
  · intro policy resolver url scheme hh hparse h1 h2
    constructor
    · simp only [validate_url_for_ssrf]
      rw [hparse]
      simp [h1, h2]
    · exact ⟨"URL scheme '", "' is not allowed. Only http and https are permitted.",
        by simp [mcpMessage]⟩
  · intro policy resolver
    exact ⟨rfl, rfl, rfl, rfl, rfl, rfl, rfl⟩

/-- Witness for C8 at the concrete URL `ftp://example.com/file`. -/
theorem C8_scheme_gate_witness :
    validate_url_for_ssrf defaultPolicy publicResolver "ftp://example.com/file" =
      .error (.invalidScheme "ftp") ∧
    ∃ pre post, mcpMessage (.invalidScheme "ftp") = pre ++ "ftp" ++ post :=
  C8_scheme_gate.1 defaultPolicy publicResolver "ftp://example.com/file" "ftp"
    (some "example.com") (by decide) (by decide) (by decide)

/-- C9: a hostname whose normalized form is in the allowlist makes the
validator return success for every resolver and policy flag, bypassing
the blocklist (localhost is blocklisted yet allowed when whitelisted) and
DNS classification (a whitelisted host resolving to a private address is
allowed); without the allowlist entry the very same URL is blocked. -/
theorem C9_whitelist_bypass :
    (∀ (policy : AllowPolicy) (resolver : Resolver) (url scheme hst : String),
       pyUrlparsed url = some (scheme, some hst) →
       (scheme = "http" ∨ scheme = "https") →
       _is_hostname_whitelisted policy.allowedPrivateHosts hst = true →
       validate_url_for_ssrf policy resolver url = .ok ()) ∧
    (∀ resolver : Resolver,
       validate_url_for_ssrf ⟨false, ["localhost"]⟩ resolver "http://localhost/" = .ok ()) ∧
    (∀ resolver : Resolver,
       validate_url_for_ssrf defaultPolicy resolver "http://localhost/" =
         .error (.blockedHostname "localhost")) ∧
    validate_url_for_ssrf ⟨false, ["internal.db"]⟩ (fun _ => .ok ["10.0.0.5"])
      "http://internal.db/" = .ok () := by
  refine ⟨?_, fun _ => rfl, fun _ => rfl, rfl⟩
  intro policy resolver url scheme hst hparse hscheme hwl
  have hsch : (decide (scheme ≠ "http") && decide (scheme ≠ "https")) = false := by
    rcases hscheme with h | h <;> simp [h]
  simp only [validate_url_for_ssrf]
  rw [hparse]
  simp [hsch, hwl]
  tauto

/-- Witness for C9 at a concrete allowlisted host. -/
theorem C9_whitelist_bypass_witness :
    validate_url_for_ssrf ⟨false, ["internal.company.com"]⟩ publicResolver
      "http://Internal.Company.Com./" = .ok () :=
  C9_whitelist_bypass.1 ⟨false, ["internal.company.com"]⟩ publicResolver
    "http://Internal.Company.Com./" "http" "internal.company.com."
    (by decide) (Or.inl rfl) (by decide)

/-- C6: the Decoder maps the decimal, hex, octal-integer and octal-dotted
encodings of 127.0.0.1 to the canonical dotted quad, and yields nothing
for a hostname or a plain dotted quad without obfuscation markers. -/
theorem C6_decoder_examples :
    _parse_obfuscated_ip "2130706433" = some "127.0.0.1" ∧
    _parse_obfuscated_ip "0x7f000001" = some "127.0.0.1" ∧
    _parse_obfuscated_ip "017700000001" = some "127.0.0.1" ∧
    _parse_obfuscated_ip "0177.0.0.1" = some "127.0.0.1" ∧
    _parse_obfuscated_ip "example.com" = none ∧
    _parse_obfuscated_ip "127.0.0.1" = none := by decide

/-- C10: with `start_index` at or beyond the content length the tool
substitutes the no-more-content error text; otherwise (for the positive
`max_length` the schema enforces) it returns exactly
`content[start_index : start_index + max_length]`, with the continuation
hint appended precisely when that slice is full-length and content
remains. -/
theorem C10_truncation (content : List Char) (startIndex maxLength : Nat) :
    (startIndex ≥ content.length →
       truncateFetchedContent content startIndex maxLength = NO_MORE_CONTENT) ∧
    (startIndex < content.length → 0 < maxLength →
       truncateFetchedContent content startIndex maxLength =
         (content.drop startIndex).take maxLength ++
           (if ((content.drop startIndex).take maxLength).length = maxLength ∧
               startIndex + maxLength < content.length
            then truncationHint (startIndex + maxLength) else [])) := by
  constructor
  · intro h
    unfold truncateFetchedContent
    rw [if_pos h]
  · intro hlt hmax
    have hslice : pySlice content startIndex (startIndex + maxLength) =
        (content.drop startIndex).take maxLength := by
      simp [pySlice, List.drop_take]
    have hlen : ((content.drop startIndex).take maxLength).length =
        min maxLength (content.length - startIndex) := by
      simp [List.length_take, List.length_drop]
    have hpos : 0 < ((content.drop startIndex).take maxLength).length := by omega
    have hni : ((content.drop startIndex).take maxLength).isEmpty = false := by
      cases hsl : (content.drop startIndex).take maxLength with
      | nil => simp [hsl] at hpos
      | cons a t => rfl
    simp only [truncateFetchedContent, hslice]
    rw [if_neg (by omega)]
    simp only [hni, Bool.false_eq_true, if_false]
    split_ifs with h1 h2 h3
    · simp only [Bool.and_eq_true, decide_eq_true_eq] at h1
      rw [h1.1]
    · simp only [Bool.and_eq_true, decide_eq_true_eq] at h1
      exact absurd ⟨h1.1, by omega⟩ h2
    · simp only [Bool.and_eq_true, decide_eq_true_eq, not_and] at h1
      exfalso
      apply h1
      · exact h3.1
      · omega
    · rw [List.append_nil]

/-- Witness for C10: a full-length slice with remaining content gets the
hint, and an out-of-range start index yields the error text. -/
theorem C10_truncation_witness :
    truncateFetchedContent "hello world".data 0 5 =
      "hello".data ++ truncationHint 5 ∧
    truncateFetchedContent "hello".data 7 3 = NO_MORE_CONTENT := by
  constructor
  · have h := (C10_truncation "hello world".data 0 5).2 (by decide) (by decide)
    rw [h]
    decide
  · exact (C10_truncation "hello".data 7 3).1 (by decide)

/-- An octal digit is an ASCII digit. -/
theorem isDigit_of_octDigit (c : Char) (h : (c ≥ '0' && c ≤ '7') = true) :
    c.isDigit = true := by
  simp only [ge_iff_le, Bool.and_eq_true, decide_eq_true_eq] at h
  simp only [Char.isDigit, Bool.and_eq_true, decide_eq_true_eq]
  exact ⟨h.1, le_trans h.2 (show ('7' : Char) ≤ '9' by decide)⟩

/-- `str.lower()` leaves ASCII digits unchanged. -/
theorem toLower_of_isDigit (c : Char) (h : c.isDigit = true) : c.toLower = c := by
  simp only [Char.isDigit, Bool.and_eq_true, decide_eq_true_eq] at h
  have h9 : c.toNat ≤ 57 := by
    have h2 := h.2
    simp only [Char.le_def] at h2
    exact h2
  unfold Char.toLower
  rw [if_neg]
  simp only [Bool.and_eq_true, decide_eq_true_eq, not_and]
  intro hc
  omega

/-- The value of a one-digit decimal string is at most 9. -/
theorem decVal_single_le (c : Char) (h : c.isDigit = true) : decVal [c] ≤ 9 := by
  simp only [Char.isDigit, Bool.and_eq_true, decide_eq_true_eq] at h
  have h9 : c.toNat ≤ 57 := by
    have h2 := h.2
    simp only [Char.le_def] at h2
    exact h2
  have h0 : 48 ≤ c.toNat := by
    have h1 := h.1
    simp only [Char.le_def] at h1
    exact h1
  have hz : ('0' : Char).toNat = 48 := by decide
  simp only [decVal, List.foldl_cons, List.foldl_nil, hz]
  omega

/-- Branch (a) of the Decoder: an all-octal-digit token with a leading
zero and at least two characters decodes as an octal 32-bit integer,
rendered as a dotted quad. -/
theorem decoder_octal_form (s : String)
    (hh : s.data.headD ' ' = '0') (hlen : 1 < s.data.length)
    (hoct : s.data.all (fun c => c ≥ '0' && c ≤ '7') = true)
    (hle : octVal s.data ≤ 0xFFFFFFFF) :
    _parse_obfuscated_ip s = some (ipv4Str (octVal s.data)) := by
  have hdig : s.data.all Char.isDigit = true := by
    rw [List.all_eq_true] at hoct ⊢
    intro c hc
    exact isDigit_of_octDigit c (hoct c hc)
  have hstrip : pyStrip s.data = s.data := by
    apply pyStrip_eq_self
    intro c hc
    rw [List.all_eq_true] at hdig
    exact not_space_of_digit c (hdig c hc)
  have hne : s.data ≠ [] := by
    intro he; rw [he] at hlen; simp at hlen
  have hisdig : pyIsDigitStr s.data = true := by
    simp [pyIsDigitStr, hdig, hne]
  have hoctv : pyIntOctDigits? s.data = some (octVal s.data) := by
    simp [pyIntOctDigits?, hoct]
  have hh2 : s.data.head?.getD ' ' = '0' := by
    rw [← List.headD_eq_head?_getD]
    exact hh
  have hlen2 : 1 < s.length := hlen
  simp [_parse_obfuscated_ip, hstrip, hh, hh2, hlen, hlen2, hisdig, hoctv,
    Option.filter, hle]

/-- Branch (b) of the Decoder: an all-digit token without a leading zero
(or of length one) decodes as a decimal 32-bit integer when in range,
and decodes to nothing at all when out of range. -/
theorem decoder_decimal_form (s : String)
    (hdigstr : pyIsDigitStr s.data = true)
    (hl : s.data.length = 1 ∨ s.data.headD ' ' ≠ '0') :
    (decVal s.data ≤ 0xFFFFFFFF →
       _parse_obfuscated_ip s = some (ipv4Str (decVal s.data))) ∧
    (0xFFFFFFFF < decVal s.data → _parse_obfuscated_ip s = none) := by
  have hdig : s.data.all Char.isDigit = true := by
    simp only [pyIsDigitStr, Bool.and_eq_true] at hdigstr
    exact hdigstr.2
  have hne : s.data ≠ [] := by
    intro he
    rw [he] at hdigstr
    simp [pyIsDigitStr] at hdigstr
  have hstrip : pyStrip s.data = s.data := by
    apply pyStrip_eq_self
    intro c hc
    rw [List.all_eq_true] at hdig
    exact not_space_of_digit c (hdig c hc)
  have hb1 : ¬ (s.data.head?.getD ' ' = '0' ∧ 1 < s.length) := by
    rcases hl with h1 | h1
    · intro hcon
      have hsl : s.length = 1 := h1
      omega
    · intro hcon
      apply h1
      rw [List.headD_eq_head?_getD]
      exact hcon.1
  constructor
  · intro hle
    simp [_parse_obfuscated_ip, hstrip, hb1, hdigstr, Option.filter, hle]
  · intro hgt
    rcases hl with h1 | h1
    · exfalso
      obtain ⟨c, hc⟩ := List.length_eq_one.mp h1
      have hcd : c.isDigit = true := by
        rw [List.all_eq_true] at hdig
        exact hdig c (by rw [hc]; simp)
      have hle9 := decVal_single_le c hcd
      rw [hc] at hgt
      omega
    · have hnle : ¬ decVal s.data ≤ 0xFFFFFFFF := by omega
      have hx2 : (pyLowerL s.data).take 2 ≠ ['0', 'x'] := by
        intro heq
        cases hsd : s.data with
        | nil => exact hne hsd
        | cons c rest =>
          cases rest with
          | nil =>
              rw [hsd] at heq
              simp [pyLowerL] at heq
          | cons c2 rest2 =>
              rw [hsd] at heq
              simp [pyLowerL] at heq
              have hc2 : c2.isDigit = true := by
                rw [List.all_eq_true] at hdig
                exact hdig c2 (by rw [hsd]; simp)
              rw [toLower_of_isDigit c2 hc2] at heq
              rw [heq.2] at hc2
              exact absurd hc2 (by decide)
      have hdotm : '.' ∉ s.data := by
        intro hm
        rw [List.all_eq_true] at hdig
        exact absurd (hdig '.' hm) (by decide)
      have hdot : s.data.contains '.' = false :=
        contains_eq_false_of_all hdig (by decide)
      simp [_parse_obfuscated_ip, hstrip, hb1, hdigstr, Option.filter, hnle,
        hx2, hdotm, hdot, parseObfDotted?]

/-- Branch (c) of the Decoder: a `0x`-marked all-hex token without dots
decodes as a hexadecimal 32-bit integer when in range. -/
theorem decoder_hex_form (t : List Char) (hne : t ≠ [])
    (ht : t.all isHexDigitChar = true) (hle : hexVal t ≤ 0xFFFFFFFF) :
    _parse_obfuscated_ip ⟨'0' :: 'x' :: t⟩ = some (ipv4Str (hexVal t)) := by
  have hta : ∀ c ∈ t, isHexDigitChar c = true := by
    rw [List.all_eq_true] at ht
    exact ht
  have hstrip : pyStrip ('0' :: 'x' :: t) = '0' :: 'x' :: t := by
    apply pyStrip_eq_self
    intro c hc
    simp only [List.mem_cons] at hc
    rcases hc with rfl | rfl | hc
    · decide
    · decide
    · exact not_space_of_hexDigit c (hta c hc)
  have hnd : pyIsDigitStr ('0' :: 'x' :: t) = false := by
    have hx : ('x' : Char).isDigit = false := by decide
    simp [pyIsDigitStr, hx]
  have hlow : (pyLowerL ('0' :: 'x' :: t)).take 2 = ['0', 'x'] := by
    have hmap : pyLowerL ('0' :: 'x' :: t) = '0' :: 'x' :: pyLowerL t := by
      simp only [pyLowerL, List.map_cons]
      rw [show Char.toLower '0' = '0' from by decide,
        show Char.toLower 'x' = 'x' from by decide]
    rw [hmap]
    simp
  have hdotm : '.' ∉ ('0' :: 'x' :: t) := by
    intro hm
    simp only [List.mem_cons] at hm
    rcases hm with hm | hm | hm
    · exact absurd hm (by decide)
    · exact absurd hm (by decide)
    · exact absurd (hta '.' hm) (by decide)
  have hhex : pyIntHex0x? ('0' :: 'x' :: t) = some (hexVal t) := by
    have hh' : t.headD ' ' ≠ '_' := by
      cases t with
      | nil => decide
      | cons c r =>
          rw [List.all_cons, Bool.and_eq_true] at ht
          simp only [List.headD]
          intro he
          rw [he] at ht
          exact absurd ht.1 (by decide)
    simp only [pyIntHex0x?]
    rw [show ('0' :: 'x' :: t).drop 2 = t from rfl]
    simp only [hexTailDigits?]
    rw [if_neg hh', groupedDigits?_of_all isHexDigitChar (by decide) t hne ht]
    rfl
  simp [_parse_obfuscated_ip, hstrip, hnd, hlow, hdotm, hhex, Option.filter, hle]

/-- C7: the Decoder tries the recognized forms in priority order — (a) an
all-digit leading-zero token as octal ("017" decodes octally to 0.0.0.15,
not decimally), (b) an all-digit token without leading zero as decimal,
(c) a `0x` token as hex, (d) a dotted 4-part token with at least one
obfuscated octet per-octet — with candidate integers confined to the
32-bit range (out-of-range candidates fall through and die) and results
rendered as canonical dotted quads. -/
theorem C7_decoder_priority :
    (∀ s : String, s.data.headD ' ' = '0' → 1 < s.data.length →
       s.data.all (fun c => c ≥ '0' && c ≤ '7') = true →
       octVal s.data ≤ 0xFFFFFFFF →
       _parse_obfuscated_ip s = some (ipv4Str (octVal s.data))) ∧
    (∀ s : String, pyIsDigitStr s.data = true →
       (s.data.length = 1 ∨ s.data.headD ' ' ≠ '0') →
       (decVal s.data ≤ 0xFFFFFFFF →
          _parse_obfuscated_ip s = some (ipv4Str (decVal s.data))) ∧
       (0xFFFFFFFF < decVal s.data → _parse_obfuscated_ip s = none)) ∧
    (∀ t : List Char, t ≠ [] → t.all isHexDigitChar = true →
       hexVal t ≤ 0xFFFFFFFF →
       _parse_obfuscated_ip ⟨'0' :: 'x' :: t⟩ = some (ipv4Str (hexVal t))) ∧
    _parse_obfuscated_ip "017" = some "0.0.0.15" ∧
    _parse_obfuscated_ip "0x7f.0x0.0x0.0x1" = some "127.0.0.1" ∧
    _parse_obfuscated_ip "0xff.1.2.3" = some "255.1.2.3" ∧
    _parse_obfuscated_ip "4294967296" = none ∧
    _parse_obfuscated_ip "0x100000000" = none ∧
    _parse_obfuscated_ip "0300.0.0.256" = none :=
  ⟨decoder_octal_form, decoder_decimal_form, decoder_hex_form,
   by decide, by decide, by decide, by decide, by decide, by decide⟩

/-- Witness for C7: the octal form at 037777777777, the decimal form at
255, and the hex form at 0xAbCd. -/
theorem C7_decoder_priority_witness :
    _parse_obfuscated_ip "037777777777" = some "255.255.255.255" ∧
    _parse_obfuscated_ip "255" = some "0.0.0.255" ∧
    _parse_obfuscated_ip "0xAbCd" = some "0.0.171.205" := by
  refine ⟨?_, ?_, ?_⟩
  · have h := C7_decoder_priority.1 "037777777777" (by decide) (by decide)
      (by decide) (by decide)
    rw [h]
    decide
  · have h := (C7_decoder_priority.2.1 "255" (by decide) (Or.inr (by decide))).1
      (by decide)
    rw [h]
    decide
  · have h := C7_decoder_priority.2.2.1 "AbCd".data (by decide) (by decide) (by decide)
    have he : ("0xAbCd" : String) = ⟨'0' :: 'x' :: "AbCd".data⟩ := by decide
    rw [he, h]
    decide
